import Mathlib

/-!
Shallow embedding of the WarpX hybrid-PIC field-update core, translated from
`Source/FieldSolver/FiniteDifferenceSolver/HybridPICModel/HybridPICModel.cpp`.

Modelling choices:
* Distributed grid fields are modelled point-wise: a field is a function from an
  abstract index type to exact rationals, or a single representative rational
  value where only the per-point update algebra matters (every grid point is
  updated by the identical arithmetic, with no coupling introduced by the
  orchestration code itself).
* Machine reals are modelled as exact rationals for the orchestration code and
  as real numbers for the electron-pressure equation of state (which uses a
  real power).
* The finite-difference stencil operators (curl of B, the Ohm-law algebra, the
  Faraday curl of E), the boundary-condition appliers and the halo exchanges
  are external collaborators of this core (spec section 1, OUT OF SCOPE); they
  are modelled as abstract function parameters gathered in `StencilOps`, and
  boundary/halo fills act as the identity on the represented interior value
  while being recorded in the event log.
* The analytic-expression compiler (`amrex::Parser`) is modelled by a small
  expression AST `PExpr` with an evaluator and a free-symbol computation,
  mirroring `compile` and `symbols` of the parser.
* Fallible code (`amrex::Abort`, `WARPX_ALWAYS_ASSERT_WITH_MESSAGE`) is
  modelled with `Except String`.
-/

/-! ### Analytic expressions (model of `amrex::Parser`)

`makeParser(expr, {"x","y","z","t"})` compiles an expression of up to four
variables; `symbols()` returns the set of free variables actually used.
An expression is a tree of literals, the four variables and arithmetic. -/

inductive PExpr where
  | lit (q : ℚ)
  | x
  | y
  | z
  | t
  | add (a b : PExpr)
  | sub (a b : PExpr)
  | mul (a b : PExpr)
  | neg (a : PExpr)
deriving DecidableEq

def PExpr.eval : PExpr → ℚ → ℚ → ℚ → ℚ → ℚ
  | .lit q, _, _, _, _ => q
  | .x, a, _, _, _ => a
  | .y, _, b, _, _ => b
  | .z, _, _, c, _ => c
  | .t, _, _, _, d => d
  | .add e1 e2, a, b, c, d => e1.eval a b c d + e2.eval a b c d
  | .sub e1 e2, a, b, c, d => e1.eval a b c d - e2.eval a b c d
  | .mul e1 e2, a, b, c, d => e1.eval a b c d * e2.eval a b c d
  | .neg e1, a, b, c, d => -(e1.eval a b c d)

def PExpr.symbols : PExpr → List String
  | .lit _ => []
  | .x => ["x"]
  | .y => ["y"]
  | .z => ["z"]
  | .t => ["t"]
  | .add e1 e2 => e1.symbols ++ e2.symbols
  | .sub e1 e2 => e1.symbols ++ e2.symbols
  | .mul e1 e2 => e1.symbols ++ e2.symbols
  | .neg e1 => e1.symbols

/-- Model of `m_external_field_has_time_dependence`: in `InitData`
(lines 173-177) the counts of the symbol `"t"` of the three external-current
parsers are accumulated; the stored flag is true exactly when the total count
is nonzero. -/
def externalFieldHasTimeDependence (jx jy jz : PExpr) : Bool :=
  decide (0 < jx.symbols.count "t" + jy.symbols.count "t" + jz.symbols.count "t")

/-! ### Run parameters (`HybridPICModel::ReadParameters`, lines 26-72)

`queryWithParser`/`query` leave a member at its default when the option is
absent; the input is therefore a record of optional values.  The grid-function
strings are modelled as already-parsed `PExpr` values (the string-to-AST
translation performed by `makeParser` in `InitData` is the external expression
compiler); a missing grid-function option keeps the default zero expression. -/

/-- PhysConst::q_e, the elementary charge in SI units, as an exact rational. -/
def PhysConst_q_e : ℚ := 1602176634 / 10 ^ 28

structure ParamInput where
  substeps : Option ℕ := none
  gamma : Option ℚ := none
  elec_temp : Option ℚ := none
  n0_ref : Option ℚ := none
  eta_expression : Option String := none
  n_floor : Option ℚ := none
  eta_h : Option ℚ := none
  Jx_external_grid_function : Option PExpr := none
  Jy_external_grid_function : Option PExpr := none
  Jz_external_grid_function : Option PExpr := none
  Bx_external_grid_function : Option PExpr := none
  By_external_grid_function : Option PExpr := none
  Bz_external_grid_function : Option PExpr := none
  B_external_init_style : Option String := none
  read_fields_from_path : Option String := none
deriving DecidableEq

structure HybridPICModelParams where
  m_substeps : ℕ
  m_gamma : ℚ
  m_elec_temp : ℚ
  m_n0_ref : ℚ
  m_eta_expression : String
  m_n_floor : ℚ
  m_eta_h : ℚ
  m_Jx_ext_grid_function : PExpr
  m_Jy_ext_grid_function : PExpr
  m_Jz_ext_grid_function : PExpr
  m_Bx_ext_grid_function : PExpr
  m_By_ext_grid_function : PExpr
  m_Bz_ext_grid_function : PExpr
  B_ext_grid_s : String
  external_fields_path : String
deriving DecidableEq

/-- Model of `HybridPICModel::ReadParameters` (lines 26-72).  Defaults
(substeps 50, gamma 1, zero hyper-resistivity, unit density floor, zero
external expressions, empty init style) follow the spec, section 6; the two
`Abort` calls become `Except.error` with the source message (the apostrophe of
the source text is dropped from strings in this file). -/
def ReadParameters (pp : ParamInput) : Except String HybridPICModelParams :=
  match pp.elec_temp with
  | none => Except.error "hybrid_pic_model.elec_temp must be specified when using the hybrid solver"
  | some te =>
    if pp.gamma.getD 1 ≠ 1 ∧ pp.n0_ref = none then
      Except.error "hybrid_pic_model.n0_ref should be specified if hybrid_pic_model.gamma != 1"
    else
      Except.ok
        { m_substeps := pp.substeps.getD 50
          m_gamma := pp.gamma.getD 1
          m_elec_temp := te * PhysConst_q_e
          m_n0_ref := pp.n0_ref.getD 0
          m_eta_expression := pp.eta_expression.getD "0.0"
          m_n_floor := pp.n_floor.getD 1
          m_eta_h := pp.eta_h.getD 0
          m_Jx_ext_grid_function := pp.Jx_external_grid_function.getD (PExpr.lit 0)
          m_Jy_ext_grid_function := pp.Jy_external_grid_function.getD (PExpr.lit 0)
          m_Jz_ext_grid_function := pp.Jz_external_grid_function.getD (PExpr.lit 0)
          m_Bx_ext_grid_function := pp.Bx_external_grid_function.getD (PExpr.lit 0)
          m_By_ext_grid_function := pp.By_external_grid_function.getD (PExpr.lit 0)
          m_Bz_ext_grid_function := pp.Bz_external_grid_function.getD (PExpr.lit 0)
          B_ext_grid_s := pp.B_external_init_style.getD ""
          external_fields_path :=
            if pp.B_external_init_style.getD "" = "read_from_file" then
              pp.read_fields_from_path.getD ""
            else "" }

/-! ### Owned buffers and per-level lifecycle
(`AllocateMFs` lines 74-82, `AllocateLevelMFs` lines 84-142,
`ClearLevel` lines 144-153)

A distributed multifab is described by its staggering (`amrex::convert` index
type), its ghost-cell widths and the value it is initialised with
(`AllocInitMultiFab(..., 0.0_rt)`).  The 3-D build is modelled
(`AMREX_D_DECL(1,1,1)` is the node-centered index type in every dimension). -/

structure IntVect3 where
  c0 : ℕ
  c1 : ℕ
  c2 : ℕ
deriving DecidableEq

structure BufDesc where
  nodalFlag : IntVect3
  nGrow : IntVect3
  initVal : ℚ
deriving DecidableEq

structure LevelBuffers where
  electron_pressure_fp : Option BufDesc
  rho_fp_temp : Option BufDesc
  current_fp_temp : Fin 3 → Option BufDesc
  current_fp_ampere : Fin 3 → Option BufDesc
  current_fp_external : Fin 3 → Option BufDesc
  bfield_fp_external : Fin 3 → Option BufDesc

/-- Model of `HybridPICModel::AllocateLevelMFs` (lines 84-142): each owned
multifab is created at the stated staggering and ghost width and
zero-initialised; the external current and external B multifabs are created
node-centered in every dimension with zero ghost cells. -/
def AllocateLevelMFs (jx_nodal_flag jy_nodal_flag jz_nodal_flag rho_nodal_flag : IntVect3)
    (ngJ ngRho : IntVect3) : LevelBuffers :=
  { electron_pressure_fp := some ⟨rho_nodal_flag, ngRho, 0⟩
    rho_fp_temp := some ⟨rho_nodal_flag, ngRho, 0⟩
    current_fp_temp := fun i => some ⟨![jx_nodal_flag, jy_nodal_flag, jz_nodal_flag] i, ngJ, 0⟩
    current_fp_ampere := fun i => some ⟨![jx_nodal_flag, jy_nodal_flag, jz_nodal_flag] i, ngJ, 0⟩
    current_fp_external := fun _ => some ⟨⟨1, 1, 1⟩, ⟨0, 0, 0⟩, 0⟩
    bfield_fp_external := fun _ => some ⟨⟨1, 1, 1⟩, ⟨0, 0, 0⟩, 0⟩ }

/-- Model of `HybridPICModel::ClearLevel` (lines 144-153): `reset()` of
`electron_pressure_fp`, `rho_fp_temp` and, for each component,
`current_fp_temp`, `current_fp_ampere` and `current_fp_external`.
The source does not reset `bfield_fp_external`. -/
def ClearLevel (b : LevelBuffers) : LevelBuffers :=
  { b with
    electron_pressure_fp := none
    rho_fp_temp := none
    current_fp_temp := fun _ => none
    current_fp_ampere := fun _ => none
    current_fp_external := fun _ => none }

def emptyLevelBuffers : LevelBuffers :=
  { electron_pressure_fp := none
    rho_fp_temp := none
    current_fp_temp := fun _ => none
    current_fp_ampere := fun _ => none
    current_fp_external := fun _ => none
    bfield_fp_external := fun _ => none }

/-- Model of `HybridPICModel::AllocateMFs` (lines 74-82): resize the per-level
vectors; no level holds an allocated multifab yet. -/
def AllocateMFs (nlevs_max : ℕ) : List LevelBuffers :=
  List.replicate nlevs_max emptyLevelBuffers

structure HybridPICModelObj where
  params : HybridPICModelParams
  levels : List LevelBuffers

/-- Model of the constructor `HybridPICModel::HybridPICModel` (lines 20-24):
`ReadParameters()` runs first and `AllocateMFs(nlevs_max)` only afterwards, so
a fatal configuration error propagates before any buffer vector exists. -/
def HybridPICModel_ctor (nlevs_max : ℕ) (pp : ParamInput) : Except String HybridPICModelObj :=
  (ReadParameters pp).map fun ps => { params := ps, levels := AllocateMFs nlevs_max }

/-! ### External-field evaluation and `InitData`
(`InitData` lines 155-297, `GetExternalBField` lines 299-441,
`GetCurrentExternal` lines 443-589)

A per-level external field is a map from grid index to the three components;
all three external multifabs are node-centered on the same box array
(`AllocateLevelMFs`), so a single position map `pos` serves the three
components. -/

structure LevelExtFields (ι : Type) where
  Jext : ι → ℚ × ℚ × ℚ
  Bext : ι → ℚ × ℚ × ℚ

/-- Point-wise evaluation of the three external-current expressions at time
`t` on the nodal grid (`GetCurrentExternal`, per-level, lines 456-589: each
nodal point receives `J_external(x,y,z,t)`). -/
def evalExternalJ {ι : Type} (jx jy jz : PExpr) (pos : ι → ℚ × ℚ × ℚ) (t : ℚ) :
    ι → ℚ × ℚ × ℚ :=
  fun i =>
    (jx.eval (pos i).1 (pos i).2.1 (pos i).2.2 t,
     jy.eval (pos i).1 (pos i).2.1 (pos i).2.2 t,
     jz.eval (pos i).1 (pos i).2.1 (pos i).2.2 t)

/-- Point-wise evaluation of the three external-B expressions
(`GetExternalBField`, per-level, lines 310-441); the B parsers are compiled
with the three space variables only, so the time slot of the AST evaluator is
fixed at 0. -/
def evalExternalB {ι : Type} (bxe bye bze : PExpr) (pos : ι → ℚ × ℚ × ℚ) :
    ι → ℚ × ℚ × ℚ :=
  fun i =>
    (bxe.eval (pos i).1 (pos i).2.1 (pos i).2.2 0,
     bye.eval (pos i).1 (pos i).2.1 (pos i).2.2 0,
     bze.eval (pos i).1 (pos i).2.1 (pos i).2.2 0)

/-- Per-level `GetCurrentExternal` (lines 456-589): overwrite the external
current with the expressions evaluated at the given time. -/
def GetCurrentExternal_lev {ι : Type} (jx jy jz : PExpr) (pos : ι → ℚ × ℚ × ℚ) (t : ℚ)
    (st : LevelExtFields ι) : LevelExtFields ι :=
  { st with Jext := evalExternalJ jx jy jz pos t }

/-- Per-level `GetExternalBField` (lines 310-441). -/
def GetExternalBField_lev {ι : Type} (bxe bye bze : PExpr) (pos : ι → ℚ × ℚ × ℚ)
    (st : LevelExtFields ι) : LevelExtFields ι :=
  { st with Bext := evalExternalB bxe bye bze pos }

/-- The all-levels `GetCurrentExternal` (lines 443-453): if the compiled
external-current expressions have no time dependence the call returns at once,
leaving the field untouched; otherwise every level is re-evaluated at `t`. -/
def GetCurrentExternal_vec {ι : Type} (jx jy jz : PExpr) (pos : ι → ℚ × ℚ × ℚ) (t : ℚ)
    (st : LevelExtFields ι) : LevelExtFields ι :=
  if externalFieldHasTimeDependence jx jy jz then
    GetCurrentExternal_lev jx jy jz pos t st
  else st

/-- Per-field staggering descriptors read back from the ambient mesh in
`InitData` (lines 192-200). -/
structure GridStaggering where
  Jx : IntVect3
  Jy : IntVect3
  Jz : IntVect3
  Bx : IntVect3
  By : IntVect3
  Bz : IntVect3
  Ex : IntVect3
  Ey : IntVect3
  Ez : IntVect3
deriving DecidableEq

/-- The `appropriate_grids` check of `InitData` (lines 202-217), 3-D branch:
the exact Yee staggering for E and B, and J staggered like E. -/
def appropriate_grids (g : GridStaggering) : Prop :=
  g.Ex = ⟨0, 1, 1⟩ ∧ g.Ey = ⟨1, 0, 1⟩ ∧ g.Ez = ⟨1, 1, 0⟩ ∧
  g.Bx = ⟨1, 0, 0⟩ ∧ g.By = ⟨0, 1, 0⟩ ∧ g.Bz = ⟨0, 0, 1⟩ ∧
  g.Jx = g.Ex ∧ g.Jy = g.Ey ∧ g.Jz = g.Ez

instance (g : GridStaggering) : Decidable (appropriate_grids g) := by
  unfold appropriate_grids
  infer_instance

/-- Model of `HybridPICModel::InitData` (lines 155-297) restricted to a single
level.  After compiling the parsers (the `PExpr` values carried by the
parameters) the Yee-staggering assertion runs; then the external current is
evaluated once at the current time `t0`, and external B is initialised from
the analytic expressions when `B_ext_grid_s` is `parse_b_ext_grid_function`,
or from the file-reader collaborator (modelled by the already-interpolated
field `fileB`) when it is `read_from_file`.  Any other style falls through
both `if` statements (lines 284-295): there is no abort branch for an
unrecognized style. -/
def InitData {ι : Type} (ps : HybridPICModelParams) (g : GridStaggering)
    (pos : ι → ℚ × ℚ × ℚ) (t0 : ℚ) (fileB : ι → ℚ × ℚ × ℚ)
    (st : LevelExtFields ι) : Except String (LevelExtFields ι) :=
  if appropriate_grids g then
    let st1 := GetCurrentExternal_lev ps.m_Jx_ext_grid_function ps.m_Jy_ext_grid_function
      ps.m_Jz_ext_grid_function pos t0 st
    let st2 :=
      if ps.B_ext_grid_s = "parse_b_ext_grid_function" then
        GetExternalBField_lev ps.m_Bx_ext_grid_function ps.m_By_ext_grid_function
          ps.m_Bz_ext_grid_function pos st1
      else st1
    let st3 :=
      if ps.B_ext_grid_s = "read_from_file" then { st2 with Bext := fileB }
      else st2
    Except.ok st3
  else
    Except.error "Ohm law E-solve only works with staggered (Yee) grids."

/-! ### Electron-pressure equation of state
(`FillElectronPressureMF` lines 926-953)

`ElectronPressure::get_pressure` lives in `ElectronPressure.H`, which is not
part of the sources here; only its caller is. -/

/-- Modelled from the spec: `ElectronPressure::get_pressure` (declared in
`ElectronPressure.H`, not among the source files) computes
`pressure(rho) = n0 * T_e * (rho/n0)^gamma` when `gamma` differs from 1 and
the linear law `T_e * rho` when `gamma = 1` (spec sections 4.2 and 8). -/
noncomputable def get_pressure (n0_ref elec_temp gamma rho : ℝ) : ℝ :=
  if gamma = 1 then elec_temp * rho
  else n0_ref * elec_temp * (rho / n0_ref) ^ gamma

/-- Model of `HybridPICModel::FillElectronPressureMF` (lines 926-953): the
pressure field is the point-wise image of the charge-density field under
`get_pressure` with the stored run parameters. -/
noncomputable def FillElectronPressureMF {ι : Type} (n0_ref elec_temp gamma : ℝ)
    (rho_field : ι → ℝ) : ι → ℝ :=
  fun i => get_pressure n0_ref elec_temp gamma (rho_field i)

/-! ### Field push and the RK4 sub-cycle
(`CalculateCurrentAmpere` lines 818-835, `HybridPICSolveE` lines 837-895,
`BfieldEvolveRK` lines 974-1085, `FieldPush` lines 1087-1106)

The state carries the borrowed B and E fields, the owned Ampere-current
scratch, the owned external J and B fields, the owned electron pressure and
the read-only collaborators (ion current, charge density, edge lengths), each
as a representative grid value, together with an event log of the collaborator
invocations. -/

inductive Ev where
  | calcAmpere
  | fillJampBoundary
  | ohmSolve (include_resistivity_term : Bool)
  | applyEBoundary
  | fillE
  | evolveBStep (dt : ℚ)
  | fillB
deriving DecidableEq

/-- The external finite-difference stencil operators consumed as black boxes
(spec section 1): the Ampere curl `curl(B)/mu0`, the Ohm-law per-cell algebra
(arguments in the order of the call at lines 888-893: Ampere current, ion
current, external current, B, external B, charge density, electron pressure,
edge lengths, and the resistivity flag) and the Faraday curl of E used by
`EvolveB`. -/
structure StencilOps where
  curlBmu0 : ℚ → ℚ → ℚ
  ohmE : ℚ → ℚ → ℚ → ℚ → ℚ → ℚ → ℚ → ℚ → Bool → ℚ
  curlE : ℚ → ℚ

structure HybridState where
  Bf : ℚ
  Ef : ℚ
  Jamp : ℚ
  Jext : ℚ
  Bext : ℚ
  Pe : ℚ
  Jion : ℚ
  rho : ℚ
  edge : ℚ
  log : List Ev

/-- Model of per-level `CalculateCurrentAmpere` (lines 818-835): the stencil
writes `curl(B)/mu0` into the owned Ampere-current multifab, then its ghost
cells are filled. -/
def CalculateCurrentAmpere (ops : StencilOps) (s : HybridState) : HybridState :=
  { s with
    Jamp := ops.curlBmu0 s.Bf s.edge
    log := s.log ++ [Ev.calcAmpere, Ev.fillJampBoundary] }

/-- Model of the patch-level `HybridPICSolveE` (lines 876-895): the Ohm-law
stencil solves E from the Ampere current, ion current, external current, B,
external B, charge density, electron pressure and edge lengths, honouring the
resistivity flag; afterwards the E-field boundary conditions are applied. -/
def HybridPICSolveE_patch (ops : StencilOps) (include_resistivity_term : Bool)
    (s : HybridState) : HybridState :=
  { s with
    Ef := ops.ohmE s.Jamp s.Jion s.Jext s.Bf s.Bext s.rho s.Pe s.edge include_resistivity_term
    log := s.log ++ [Ev.ohmSolve include_resistivity_term, Ev.applyEBoundary] }

/-- Model of the per-level `HybridPICSolveE` (lines 855-874): the fine-patch
solve runs, and then any refinement level above 0 hits
`amrex::Abort("HybridPICSolveE: Only one level implemented for hybrid-PIC solver.")`. -/
def HybridPICSolveE_lev (ops : StencilOps) (include_resistivity_term : Bool)
    (lev : ℕ) (s : HybridState) : Except String HybridState :=
  let s1 := HybridPICSolveE_patch ops include_resistivity_term s
  if 0 < lev then
    Except.error "HybridPICSolveE: Only one level implemented for hybrid-PIC solver."
  else
    Except.ok s1

/-- `warpx.FillBoundaryE` halo exchange: identity on the represented interior
value, recorded in the log. -/
def fillBoundaryE (s : HybridState) : HybridState :=
  { s with log := s.log ++ [Ev.fillE] }

/-- `warpx.EvolveB(dt, dt_type)`: the ambient Faraday stencil advances B by
`-dt * curl(E)` using the current E field. -/
def EvolveB (ops : StencilOps) (dt : ℚ) (s : HybridState) : HybridState :=
  { s with
    Bf := s.Bf - dt * ops.curlE s.Ef
    log := s.log ++ [Ev.evolveBStep dt] }

/-- `warpx.FillBoundaryB` halo exchange: identity on the represented interior
value, recorded in the log. -/
def fillBoundaryB (s : HybridState) : HybridState :=
  { s with log := s.log ++ [Ev.fillB] }

/-- Model of `HybridPICModel::FieldPush` (lines 1087-1106): compute the Ampere
current from the current B, solve Ohm-law E with the resistivity term
included, fill the E halo, advance B through Faraday with the sub-step `dt`,
fill the B halo.  The all-levels E-solve it calls reduces to the fine-patch
solve because only level 0 exists (the single supported level). -/
def FieldPush (ops : StencilOps) (dt : ℚ) (s : HybridState) : HybridState :=
  let s1 := CalculateCurrentAmpere ops s
  let s2 := HybridPICSolveE_patch ops true s1
  let s3 := fillBoundaryE s2
  let s4 := EvolveB ops dt s3
  fillBoundaryB s4

/-- The effective stage derivative of one field push: with the collaborators
held fixed, `FieldPush` maps `B` to `B + dt * stageDeriv ... B`. -/
def stageDeriv (ops : StencilOps) (jion jext bext rho pe edge b : ℚ) : ℚ :=
  -(ops.curlE (ops.ohmE (ops.curlBmu0 b edge) jion jext b bext rho pe edge true))

/-- State after stage 1 of `BfieldEvolveRK` (push of `dt/2` from the incoming
state, lines 1004-1008). -/
def rkS1 (ops : StencilOps) (dt : ℚ) (s : HybridState) : HybridState :=
  FieldPush ops (1 / 2 * dt) s

/-- The delta captured after stage 1 (lines 1012-1018): `B_after - B_old`. -/
def rkDelta0 (ops : StencilOps) (dt : ℚ) (s : HybridState) : ℚ :=
  (rkS1 ops dt s).Bf - s.Bf

/-- State after stage 2 (push of `dt/2` from the stage-1 state,
lines 1020-1024). -/
def rkS2 (ops : StencilOps) (dt : ℚ) (s : HybridState) : HybridState :=
  FieldPush ops (1 / 2 * dt) (rkS1 ops dt s)

/-- The delta captured after stage 2 (lines 1029-1038):
`B_after - B_old - K0`. -/
def rkDelta1 (ops : StencilOps) (dt : ℚ) (s : HybridState) : ℚ :=
  (rkS2 ops dt s).Bf - s.Bf - rkDelta0 ops dt s

/-- The stage-2 state after the first delta is subtracted from B
(line 1033). -/
def rkS2a (ops : StencilOps) (dt : ℚ) (s : HybridState) : HybridState :=
  let s2 := rkS2 ops dt s
  { s2 with Bf := s2.Bf - rkDelta0 ops dt s }

/-- State after stage 3 (push of the full `dt` from the adjusted stage-2
state, lines 1040-1044). -/
def rkS3 (ops : StencilOps) (dt : ℚ) (s : HybridState) : HybridState :=
  FieldPush ops dt (rkS2a ops dt s)

/-- The delta captured after stage 3: `B_after - B_old - K1`. -/
def rkDelta2 (ops : StencilOps) (dt : ℚ) (s : HybridState) : ℚ :=
  (rkS3 ops dt s).Bf - s.Bf - rkDelta1 ops dt s

/-- The stage-3 state after the second delta is subtracted from B
(line 1053). -/
def rkS3a (ops : StencilOps) (dt : ℚ) (s : HybridState) : HybridState :=
  let s3 := rkS3 ops dt s
  { s3 with Bf := s3.Bf - rkDelta1 ops dt s }

/-- State after stage 4 (push of `dt/2` from the adjusted stage-3 state,
lines 1056-1060). -/
def rkS4 (ops : StencilOps) (dt : ℚ) (s : HybridState) : HybridState :=
  FieldPush ops (1 / 2 * dt) (rkS3a ops dt s)

/-- The delta captured after stage 4: `B_after - B_old - K2`. -/
def rkDelta3 (ops : StencilOps) (dt : ℚ) (s : HybridState) : ℚ :=
  (rkS4 ops dt s).Bf - s.Bf - rkDelta2 ops dt s

/-- Model of per-level `HybridPICModel::BfieldEvolveRK` (lines 974-1085):
snapshot `B_old`, run the four field pushes with the stage adjustments of the
source (extract `K` component 0 after stage 1, subtract it and extract `K`
component 1 after stage 2, subtract component 1 after stage 3, subtract
`B_old` after stage 4, accumulate `K0 + (B - B_old) + 2*K1` and finally
overwrite B with `B_old + (1/3) * K` as in lines 1065-1084). -/
def BfieldEvolveRK (ops : StencilOps) (dt : ℚ) (s : HybridState) : HybridState :=
  let B_old := s.Bf
  let K0 := (rkS1 ops dt s).Bf - B_old
  let K1 := (rkS2a ops dt s).Bf - B_old
  let s4 := rkS4 ops dt s
  let s4a := { s4 with Bf := s4.Bf - B_old }
  let K0a := K0 + s4a.Bf
  let K0b := K0a + 2 * K1
  { s4a with Bf := B_old + 1 / 3 * K0b }

/-- The classical four-stage Runge-Kutta update of `b` through `dt` for the
stage function `f`, with the standard 1-2-2-1 weights over 6; this is the
reference integrator the spec appeals to. -/
def rk4Classical (f : ℚ → ℚ) (dt b : ℚ) : ℚ :=
  let k1 := f b
  let k2 := f (b + dt / 2 * k1)
  let k3 := f (b + dt / 2 * k2)
  let k4 := f (b + dt * k3)
  b + dt / 6 * (k1 + 2 * k2 + 2 * k3 + k4)

/-- The finalize formula exactly as the claim states it: the captured stage
deltas `K0..K3` combined as `B_old + (dt/3) * (0.5*K0 + K1 + K2 + 0.5*K3)`. -/
def claimedRKFinalize (ops : StencilOps) (dt : ℚ) (s : HybridState) : ℚ :=
  s.Bf + dt / 3 *
    (1 / 2 * rkDelta0 ops dt s + rkDelta1 ops dt s + rkDelta2 ops dt s +
      1 / 2 * rkDelta3 ops dt s)

/-! ### Concrete instances used by counterexamples and witnesses -/

/-- Concrete stencil operators whose stage derivative is constantly 1. -/
def cexOps : StencilOps :=
  { curlBmu0 := fun b _ => b
    ohmE := fun _ _ _ _ _ _ _ _ _ => -1
    curlE := fun e => e }

def sampleState : HybridState :=
  { Bf := 0, Ef := 0, Jamp := 0, Jext := 0, Bext := 0, Pe := 0
    Jion := 0, rho := 0, edge := 0, log := [] }

def posFin1 : Fin 1 → ℚ × ℚ × ℚ := fun _ => (0, 0, 0)

def extFields0 : LevelExtFields (Fin 1) :=
  { Jext := fun _ => (0, 0, 0), Bext := fun _ => (0, 0, 0) }

def fileBFin1 : Fin 1 → ℚ × ℚ × ℚ := fun _ => (7, 7, 7)

/-- The exact Yee staggering expected by `InitData` in 3-D. -/
def yeeStag : GridStaggering :=
  { Jx := ⟨0, 1, 1⟩, Jy := ⟨1, 0, 1⟩, Jz := ⟨1, 1, 0⟩
    Bx := ⟨1, 0, 0⟩, By := ⟨0, 1, 0⟩, Bz := ⟨0, 0, 1⟩
    Ex := ⟨0, 1, 1⟩, Ey := ⟨1, 0, 1⟩, Ez := ⟨1, 1, 0⟩ }

/-- A parameter record with an unrecognized external-B init style. -/
def psUnknownStyle : HybridPICModelParams :=
  { m_substeps := 50, m_gamma := 1, m_elec_temp := 1, m_n0_ref := 0
    m_eta_expression := "0.0", m_n_floor := 1, m_eta_h := 0
    m_Jx_ext_grid_function := PExpr.lit 0
    m_Jy_ext_grid_function := PExpr.lit 0
    m_Jz_ext_grid_function := PExpr.lit 0
    m_Bx_ext_grid_function := PExpr.lit 0
    m_By_ext_grid_function := PExpr.lit 0
    m_Bz_ext_grid_function := PExpr.lit 0
    B_ext_grid_s := "constant", external_fields_path := "" }

/-- A parameter input with `gamma = 2` and no reference density. -/
def ppGammaNoN0 : ParamInput :=
  { elec_temp := some 10, gamma := some 2 }

/-! ## Helper lemmas -/

@[simp]
theorem FieldPush_Jion (ops : StencilOps) (dt : ℚ) (s : HybridState) :
    (FieldPush ops dt s).Jion = s.Jion := rfl

@[simp]
theorem FieldPush_Jext (ops : StencilOps) (dt : ℚ) (s : HybridState) :
    (FieldPush ops dt s).Jext = s.Jext := rfl

@[simp]
theorem FieldPush_Bext (ops : StencilOps) (dt : ℚ) (s : HybridState) :
    (FieldPush ops dt s).Bext = s.Bext := rfl

@[simp]
theorem FieldPush_Pe (ops : StencilOps) (dt : ℚ) (s : HybridState) :
    (FieldPush ops dt s).Pe = s.Pe := rfl

@[simp]
theorem FieldPush_rho (ops : StencilOps) (dt : ℚ) (s : HybridState) :
    (FieldPush ops dt s).rho = s.rho := rfl

@[simp]
theorem FieldPush_edge (ops : StencilOps) (dt : ℚ) (s : HybridState) :
    (FieldPush ops dt s).edge = s.edge := rfl

theorem FieldPush_Bf (ops : StencilOps) (dt : ℚ) (s : HybridState) :
    (FieldPush ops dt s).Bf
      = s.Bf + dt * stageDeriv ops s.Jion s.Jext s.Bext s.rho s.Pe s.edge s.Bf := by
  simp only [FieldPush, CalculateCurrentAmpere, HybridPICSolveE_patch, fillBoundaryE,
    EvolveB, fillBoundaryB, stageDeriv]
  ring

/-! ## Claim theorems -/

/-- C2: every invocation of `FieldPush` performs exactly the straight-line
sequence (1) Ampere current from the current B, (2) Ohm-law E-solve from that
current, the ion current, B, electron pressure and external fields with the
resistivity term included, (3) E boundary/halo fill, (4) Faraday advance of B
with the just-solved E and the given sub-step `dt`, (5) B boundary/halo fill:
the event log extends by exactly these collaborator invocations and the final
state carries the corresponding data flow, with no branching. -/
theorem FieldPush_sequence (ops : StencilOps) (dt : ℚ) (s : HybridState) :
    FieldPush ops dt s =
      { s with
        Jamp := ops.curlBmu0 s.Bf s.edge
        Ef := ops.ohmE (ops.curlBmu0 s.Bf s.edge) s.Jion s.Jext s.Bf s.Bext s.rho s.Pe
          s.edge true
        Bf := s.Bf - dt * ops.curlE (ops.ohmE (ops.curlBmu0 s.Bf s.edge) s.Jion s.Jext
          s.Bf s.Bext s.rho s.Pe s.edge true)
        log := s.log ++ [Ev.calcAmpere, Ev.fillJampBoundary, Ev.ohmSolve true,
          Ev.applyEBoundary, Ev.fillE, Ev.evolveBStep dt, Ev.fillB] } := by
  simp [FieldPush, CalculateCurrentAmpere, HybridPICSolveE_patch, fillBoundaryE,
    EvolveB, fillBoundaryB]

/-- C9: across the whole four-stage RK4 sub-cycle, the ion-current,
charge-density and edge-length collaborators are left unmodified — by each
individual `FieldPush` call and by the complete `BfieldEvolveRK` sequence;
among the borrowed fields only B (and transitively E) are written. -/
theorem BfieldEvolveRK_frame (ops : StencilOps) (dt : ℚ) (s : HybridState) :
    ((FieldPush ops dt s).Jion = s.Jion ∧
     (FieldPush ops dt s).rho = s.rho ∧
     (FieldPush ops dt s).edge = s.edge) ∧
    ((BfieldEvolveRK ops dt s).Jion = s.Jion ∧
     (BfieldEvolveRK ops dt s).rho = s.rho ∧
     (BfieldEvolveRK ops dt s).edge = s.edge) := by
  refine ⟨⟨rfl, rfl, rfl⟩, ?_⟩
  simp [BfieldEvolveRK, rkS4, rkS3a, rkS3, rkS2a, rkS2, rkS1]

/-- C8: invoking the per-level Ohm-law E-solve on any refinement level above
the single supported level 0 is a fatal error (`amrex::Abort`), never a silent
no-op. -/
theorem HybridPICSolveE_finer_level_aborts (ops : StencilOps)
    (include_resistivity_term : Bool) (lev : ℕ) (s : HybridState) (h : 0 < lev) :
    HybridPICSolveE_lev ops include_resistivity_term lev s
      = Except.error "HybridPICSolveE: Only one level implemented for hybrid-PIC solver." := by
  simp [HybridPICSolveE_lev, h]

theorem HybridPICSolveE_finer_level_aborts_witness :
    0 < 1 ∧
    HybridPICSolveE_lev cexOps true 1 sampleState
      = Except.error "HybridPICSolveE: Only one level implemented for hybrid-PIC solver." :=
  ⟨Nat.zero_lt_one, HybridPICSolveE_finer_level_aborts cexOps true 1 sampleState Nat.zero_lt_one⟩

/-- C6 counterexample: after allocating a level and releasing it with
`ClearLevel`, the external-B buffers are still allocated — `ClearLevel` does
not reset `bfield_fp_external`, so the claim that releasing a level frees
every owned buffer including the external B components is false. -/
theorem ClearLevel_bfield_external_cex :
    (ClearLevel (AllocateLevelMFs ⟨0, 1, 1⟩ ⟨1, 0, 1⟩ ⟨1, 1, 0⟩ ⟨1, 1, 1⟩ ⟨2, 2, 2⟩
      ⟨2, 2, 2⟩)).bfield_fp_external 0 ≠ none := by
  simp [ClearLevel, AllocateLevelMFs]

/-- C6 (amended): releasing a level frees the electron-pressure buffer, the
scratch charge-density and current snapshots, the Ampere-current components
and the external-current components, but leaves the external-B components
untouched. -/
theorem ClearLevel_frees (b : LevelBuffers) :
    (ClearLevel b).electron_pressure_fp = none ∧
    (ClearLevel b).rho_fp_temp = none ∧
    (∀ i : Fin 3, (ClearLevel b).current_fp_temp i = none) ∧
    (∀ i : Fin 3, (ClearLevel b).current_fp_ampere i = none) ∧
    (∀ i : Fin 3, (ClearLevel b).current_fp_external i = none) ∧
    (∀ i : Fin 3, (ClearLevel b).bfield_fp_external i = b.bfield_fp_external i) := by
  simp [ClearLevel]

/-- C10: at level allocation the external-current and external-B components
are node-centered in every dimension with zero ghost cells, whatever Yee
staggering the ion current, Ampere current and charge density use, and every
owned buffer is zero-initialised. -/
theorem AllocateLevelMFs_external_nodal
    (jx_flag jy_flag jz_flag rho_flag ngJ ngRho : IntVect3) :
    (∀ i : Fin 3,
      (AllocateLevelMFs jx_flag jy_flag jz_flag rho_flag ngJ ngRho).current_fp_external i
        = some ⟨⟨1, 1, 1⟩, ⟨0, 0, 0⟩, 0⟩ ∧
      (AllocateLevelMFs jx_flag jy_flag jz_flag rho_flag ngJ ngRho).bfield_fp_external i
        = some ⟨⟨1, 1, 1⟩, ⟨0, 0, 0⟩, 0⟩) ∧
    (AllocateLevelMFs jx_flag jy_flag jz_flag rho_flag ngJ ngRho).electron_pressure_fp
      = some ⟨rho_flag, ngRho, 0⟩ ∧
    (AllocateLevelMFs jx_flag jy_flag jz_flag rho_flag ngJ ngRho).rho_fp_temp
      = some ⟨rho_flag, ngRho, 0⟩ ∧
    (∀ i : Fin 3,
      (AllocateLevelMFs jx_flag jy_flag jz_flag rho_flag ngJ ngRho).current_fp_temp i
        = some ⟨![jx_flag, jy_flag, jz_flag] i, ngJ, 0⟩ ∧
      (AllocateLevelMFs jx_flag jy_flag jz_flag rho_flag ngJ ngRho).current_fp_ampere i
        = some ⟨![jx_flag, jy_flag, jz_flag] i, ngJ, 0⟩) := by
  simp [AllocateLevelMFs]

/-- C5: configuration fails fatally when the electron temperature is missing,
and when `gamma` differs from 1 with no reference density given; in the latter
case the error arises in `ReadParameters`, so the constructor short-circuits
before `AllocateMFs` and no owned buffer vector is ever produced. -/
theorem ReadParameters_fatal_errors (pp : ParamInput) (nlevs : ℕ) :
    (pp.elec_temp = none →
      HybridPICModel_ctor nlevs pp
        = Except.error "hybrid_pic_model.elec_temp must be specified when using the hybrid solver") ∧
    (pp.gamma.getD 1 ≠ 1 → pp.n0_ref = none →
      ∃ msg, ReadParameters pp = Except.error msg) ∧
    (∀ te, pp.elec_temp = some te → pp.gamma.getD 1 ≠ 1 → pp.n0_ref = none →
      ReadParameters pp
        = Except.error "hybrid_pic_model.n0_ref should be specified if hybrid_pic_model.gamma != 1" ∧
      HybridPICModel_ctor nlevs pp
        = Except.error "hybrid_pic_model.n0_ref should be specified if hybrid_pic_model.gamma != 1") := by
  refine ⟨?_, ?_, ?_⟩
  · intro h
    simp [HybridPICModel_ctor, ReadParameters, h, Except.map]
  · intro hg hn
    cases hte : pp.elec_temp with
    | none =>
      exact ⟨"hybrid_pic_model.elec_temp must be specified when using the hybrid solver",
        by simp [ReadParameters, hte]⟩
    | some te =>
      exact ⟨"hybrid_pic_model.n0_ref should be specified if hybrid_pic_model.gamma != 1",
        by simp [ReadParameters, hte, hg, hn]⟩
  · intro te hte hg hn
    constructor
    · simp [ReadParameters, hte, hg, hn]
    · simp [HybridPICModel_ctor, ReadParameters, hte, hg, hn, Except.map]

theorem ReadParameters_fatal_errors_witness :
    (({} : ParamInput).elec_temp = none ∧
      HybridPICModel_ctor 1 {}
        = Except.error "hybrid_pic_model.elec_temp must be specified when using the hybrid solver") ∧
    (ppGammaNoN0.elec_temp = some 10 ∧ ppGammaNoN0.gamma.getD 1 ≠ 1 ∧
      ppGammaNoN0.n0_ref = none ∧
      ReadParameters ppGammaNoN0
        = Except.error "hybrid_pic_model.n0_ref should be specified if hybrid_pic_model.gamma != 1") :=
  ⟨⟨rfl, (ReadParameters_fatal_errors {} 1).1 rfl⟩,
   ⟨rfl, by decide, rfl,
    ((ReadParameters_fatal_errors ppGammaNoN0 1).2.2 10 rfl (by decide) rfl).1⟩⟩

theorem PExpr_eval_t_invariant (e : PExpr) (he : e.symbols.count "t" = 0)
    (a b c t1 t2 : ℚ) : e.eval a b c t1 = e.eval a b c t2 := by
  induction e with
  | lit q => rfl
  | x => rfl
  | y => rfl
  | z => rfl
  | t => simp [PExpr.symbols] at he
  | add e1 e2 ih1 ih2 =>
    simp only [PExpr.symbols, List.count_append, Nat.add_eq_zero] at he
    simp [PExpr.eval, ih1 he.1, ih2 he.2]
  | sub e1 e2 ih1 ih2 =>
    simp only [PExpr.symbols, List.count_append, Nat.add_eq_zero] at he
    simp [PExpr.eval, ih1 he.1, ih2 he.2]
  | mul e1 e2 ih1 ih2 =>
    simp only [PExpr.symbols, List.count_append, Nat.add_eq_zero] at he
    simp [PExpr.eval, ih1 he.1, ih2 he.2]
  | neg e1 ih1 =>
    simp only [PExpr.symbols] at he
    simp [PExpr.eval, ih1 he]

/-- C3: when none of the three external-current expressions mentions the time
variable, (a) evaluating the external-current field at any two times gives
identical fields, (b) the guarded all-levels update is the identity on the
stored field — every call after initialization leaves it unchanged — and
(c) the once-evaluated cached field written at initialization time `t0` equals
a from-scratch evaluation at any other time. -/
theorem GetCurrentExternal_time_independent (jx jy jz : PExpr)
    (h : externalFieldHasTimeDependence jx jy jz = false)
    {ι : Type} (pos : ι → ℚ × ℚ × ℚ) (t0 t1 t2 : ℚ) (st : LevelExtFields ι) :
    evalExternalJ jx jy jz pos t1 = evalExternalJ jx jy jz pos t2 ∧
    GetCurrentExternal_vec jx jy jz pos t1 st = st ∧
    (GetCurrentExternal_lev jx jy jz pos t0 st).Jext = evalExternalJ jx jy jz pos t2 := by
  have hcounts : jx.symbols.count "t" = 0 ∧ jy.symbols.count "t" = 0 ∧
      jz.symbols.count "t" = 0 := by
    simp only [externalFieldHasTimeDependence, decide_eq_false_iff_not, Nat.not_lt,
      Nat.le_zero, Nat.add_eq_zero] at h
    exact ⟨h.1.1, h.1.2, h.2⟩
  have heval : ∀ ta tb : ℚ, evalExternalJ jx jy jz pos ta = evalExternalJ jx jy jz pos tb := by
    intro ta tb
    funext i
    simp only [evalExternalJ]
    rw [PExpr_eval_t_invariant jx hcounts.1 _ _ _ ta tb,
      PExpr_eval_t_invariant jy hcounts.2.1 _ _ _ ta tb,
      PExpr_eval_t_invariant jz hcounts.2.2 _ _ _ ta tb]
  refine ⟨heval t1 t2, ?_, ?_⟩
  · simp [GetCurrentExternal_vec, h]
  · simpa [GetCurrentExternal_lev] using heval t0 t2

theorem GetCurrentExternal_time_independent_witness :
    externalFieldHasTimeDependence (PExpr.lit 1) (PExpr.add PExpr.x PExpr.y)
      (PExpr.lit 0) = false ∧
    GetCurrentExternal_vec (PExpr.lit 1) (PExpr.add PExpr.x PExpr.y) (PExpr.lit 0)
      posFin1 5 extFields0 = extFields0 :=
  ⟨by decide,
   (GetCurrentExternal_time_independent (PExpr.lit 1) (PExpr.add PExpr.x PExpr.y)
      (PExpr.lit 0) (by decide) posFin1 0 5 7 extFields0).2.1⟩

/-- C4: the electron-pressure evaluation is point-wise pure; for `gamma = 1`
the pressure is linear in the charge density with slope `elec_temp`, for
`gamma` different from 1 it is `n0 * T_e * (rho/n0)^gamma`, and in either case
`pressure(n0) = n0 * T_e`; filling the pressure field applies exactly this
function at every point of the density snapshot. -/
theorem get_pressure_spec (n0_ref elec_temp gamma rho : ℝ) (hn0 : n0_ref ≠ 0) :
    (gamma = 1 → get_pressure n0_ref elec_temp gamma rho = elec_temp * rho) ∧
    (gamma ≠ 1 →
      get_pressure n0_ref elec_temp gamma rho
        = n0_ref * elec_temp * (rho / n0_ref) ^ gamma) ∧
    get_pressure n0_ref elec_temp gamma n0_ref = n0_ref * elec_temp ∧
    (∀ (ι : Type) (rho_field : ι → ℝ) (i : ι),
      FillElectronPressureMF n0_ref elec_temp gamma rho_field i
        = get_pressure n0_ref elec_temp gamma (rho_field i)) := by
  refine ⟨fun h1 => by simp [get_pressure, h1], fun h1 => by simp [get_pressure, h1], ?_,
    fun ι rho_field i => rfl⟩
  by_cases h1 : gamma = 1
  · simp [get_pressure, h1, mul_comm]
  · simp [get_pressure, h1, div_self hn0, Real.one_rpow]

theorem get_pressure_spec_witness :
    (1 : ℝ) ≠ 0 ∧ get_pressure 1 2 3 1 = 1 * 2 :=
  ⟨one_ne_zero, (get_pressure_spec 1 2 3 5 one_ne_zero).2.2.1⟩

/-- C7 counterexample: with the valid Yee staggering and the unrecognized
external-B init style "constant", initialization succeeds — it returns
`Except.ok` with the external B field exactly as allocated (all zero),
instead of failing with a fatal configuration error. -/
theorem InitData_unrecognized_style_cex :
    InitData psUnknownStyle yeeStag posFin1 0 fileBFin1 extFields0
      = Except.ok extFields0 := by
  rw [InitData, if_pos (by decide)]
  simp only [GetCurrentExternal_lev]
  rw [if_neg (by decide), if_neg (by decide)]
  simp only [extFields0, psUnknownStyle]
  congr 1

/-- C7 (amended): an unrecognized `B_external_init_style` is silently
ignored — initialization completes normally, only the external current is
evaluated, and the external B field is left exactly as allocated (its
zero-initialised state); no fatal error is raised. -/
theorem InitData_unrecognized_style_skips {ι : Type} (ps : HybridPICModelParams)
    (g : GridStaggering) (pos : ι → ℚ × ℚ × ℚ) (t0 : ℚ) (fileB : ι → ℚ × ℚ × ℚ)
    (st : LevelExtFields ι) (hg : appropriate_grids g)
    (h1 : ps.B_ext_grid_s ≠ "parse_b_ext_grid_function")
    (h2 : ps.B_ext_grid_s ≠ "read_from_file") :
    InitData ps g pos t0 fileB st
      = Except.ok { st with
          Jext := evalExternalJ ps.m_Jx_ext_grid_function ps.m_Jy_ext_grid_function
            ps.m_Jz_ext_grid_function pos t0 } := by
  rw [InitData, if_pos hg]
  simp only [GetCurrentExternal_lev]
  rw [if_neg h1, if_neg h2]

theorem InitData_unrecognized_style_skips_witness :
    appropriate_grids yeeStag ∧
    psUnknownStyle.B_ext_grid_s ≠ "parse_b_ext_grid_function" ∧
    psUnknownStyle.B_ext_grid_s ≠ "read_from_file" ∧
    InitData psUnknownStyle yeeStag posFin1 0 fileBFin1 extFields0
      = Except.ok { extFields0 with
          Jext := evalExternalJ psUnknownStyle.m_Jx_ext_grid_function
            psUnknownStyle.m_Jy_ext_grid_function
            psUnknownStyle.m_Jz_ext_grid_function posFin1 0 } :=
  ⟨by decide, by decide, by decide,
   InitData_unrecognized_style_skips psUnknownStyle yeeStag posFin1 0 fileBFin1
     extFields0 (by decide) (by decide) (by decide)⟩

/-- C1 counterexample: for the concrete stencil operators with constant stage
derivative 1 and `dt = 2` from a zero initial B, the code produces
`B_new = 2` while the claimed finalize formula
`B_old + (dt/3) * (0.5*K0 + K1 + K2 + 0.5*K3)` over the captured stage deltas
gives `8/3`; the claimed formula is not what the finalize step computes. -/
theorem BfieldEvolveRK_claimed_finalize_cex :
    (BfieldEvolveRK cexOps 2 sampleState).Bf ≠ claimedRKFinalize cexOps 2 sampleState := by
  norm_num [BfieldEvolveRK, claimedRKFinalize, rkDelta0, rkDelta1, rkDelta2, rkDelta3,
    rkS1, rkS2, rkS2a, rkS3, rkS3a, rkS4, FieldPush_Bf, stageDeriv, cexOps, sampleState]

/-- C1 (amended): after the four RK4 stages with the deltas captured as
`K0 = B_after - B_old`, `K1 = B_after - B_old - K0`,
`K2 = B_after - B_old - K1`, `K3 = B_after - B_old - K2`, the finalize step
sets `B_new = B_old + (1/3) * (K0 + 2*K1 + K2 + K3)` (the stage deltas already
carry their sub-step factors), and this equals the classical RK4
(1-2-2-1 weights over 6) update of B through `dt` for the stage derivative of
one field push. -/
theorem BfieldEvolveRK_rk4 (ops : StencilOps) (dt : ℚ) (s : HybridState) :
    (BfieldEvolveRK ops dt s).Bf
        = s.Bf + 1 / 3 * (rkDelta0 ops dt s + 2 * rkDelta1 ops dt s + rkDelta2 ops dt s
            + rkDelta3 ops dt s)
    ∧ (BfieldEvolveRK ops dt s).Bf
        = rk4Classical (stageDeriv ops s.Jion s.Jext s.Bext s.rho s.Pe s.edge) dt s.Bf := by
  constructor
  · simp only [BfieldEvolveRK, rkDelta0, rkDelta1, rkDelta2, rkDelta3, rkS2a]
    ring
  · simp only [BfieldEvolveRK, rk4Classical, rkDelta0, rkDelta1, rkDelta2, rkDelta3,
      rkS1, rkS2, rkS2a, rkS3, rkS3a, rkS4, FieldPush_Bf, FieldPush_Jion, FieldPush_Jext,
      FieldPush_Bext, FieldPush_Pe, FieldPush_rho, FieldPush_edge]
    ring_nf
